import Mathlib

/-!
Verification development for the hackathon-starter conversation lifecycle.

The development shallowly embeds:
* the status-callback endpoint `POST /api/conversations/[id]/status`
  (app/api/conversations/[id]/status/route.ts, the handler `POST`);
* `killSandbox` and `buildFileTree` from src/lib/moru.ts;
* the client lifecycle controller `Home` from src/app/page.tsx
  (polling effect, `messages` computation, `handleSubmit`).

JavaScript nullable strings are embedded as `Option String`; the falsy
behaviour of the empty string under `||` is embedded explicitly.
-/

namespace HackathonStarter

/-- Conversation status values from the spec data model (lib/types.ts is not
part of the extracted sources): `idle`, `running`, `completed`, `error`. -/
inductive ConvStatus where
  | idle
  | running
  | completed
  | error
deriving DecidableEq, Repr

/-- JS `x || null` on a nullable string: `undefined`/`null` and the empty
string (falsy) both collapse to `null`. -/
def orNullStr : Option String → Option String
  | some s => if s = "" then none else some s
  | none => none

/-- JS `x || y` on a nullable string with fallback `y`: the fallback is used
when `x` is `undefined`/`null` or the empty string (falsy). -/
def jsOrStr : Option String → Option String → Option String
  | some s, prev => if s = "" then prev else some s
  | none, prev => prev

/-- JS truthiness of a nullable string (`if (x)`): true exactly for a present,
non-empty string. -/
def strTruthy : Option String → Bool
  | some s => s != ""
  | none => false

/-! ### Server side: conversation record and the status-callback endpoint -/

/-- Conversation record fields read and written by the status-callback
handler (spec data model; the Prisma schema is not part of the extracted
sources). -/
structure Conversation where
  id : String
  status : ConvStatus
  sessionId : Option String
  sandboxId : Option String
  errorMessage : Option String
deriving DecidableEq, Repr

/-- Modelled from the spec: the body of `POST /conversations/{id}/status` is
`\x7bstatus, errorMessage?, sessionId?\x7d` (the `StatusCallbackRequest` type lives
in lib/types.ts, which is not among the extracted sources; the handler
destructures exactly these three fields). -/
structure StatusCallbackRequest where
  status : ConvStatus
  errorMessage : Option String
  sessionId : Option String
deriving DecidableEq, Repr

/-- `killSandbox` from src/lib/moru.ts: `try { await Sandbox.kill(id) } catch {}`.
The outcome of the remote `Sandbox.kill` call is passed in as `raw`; any
failure is swallowed, so the function itself never errors. -/
def killSandbox (raw : Except String Unit) : Except String Unit :=
  match raw with
  | .ok _ => .ok ()
  | .error _ => .ok ()

/-- The record update performed by the status-callback handler
(route.ts lines 31–39): `status`, `errorMessage: errorMessage || null`,
`sessionId: sessionId || conversation.sessionId`, `sandboxId: null`. -/
def applyCallback (conv : Conversation) (req : StatusCallbackRequest) : Conversation :=
  { conv with
    status := req.status
    errorMessage := orNullStr req.errorMessage
    sessionId := jsOrStr req.sessionId conv.sessionId
    sandboxId := none }

/-- A conversation record after a sequence of status-callback updates. -/
def applyCallbacks (conv : Conversation) (reqs : List StatusCallbackRequest) : Conversation :=
  reqs.foldl applyCallback conv

/-- HTTP responses of the status-callback handler. -/
inductive PostResponse where
  | success
  | notFound
  | serverError (msg : String)
deriving DecidableEq, Repr

/-- The conversation store, keyed by conversation id. -/
def Db : Type := String → Option Conversation

/-- Result of one call to the status-callback handler: the updated store, the
HTTP response, and whether the cleanup step invoked the sandbox kill. -/
structure PostOutcome where
  db : Db
  response : PostResponse
  cleanupAttempted : Bool

/-- The `POST` handler of app/api/conversations/[id]/status/route.ts:
look up the conversation (404 when missing), apply the record update, then —
if the looked-up record carried a (truthy) `sandboxId` — run `killSandbox`
on it, and return `\x7bsuccess: true\x7d`. `raw` is the outcome of the underlying
remote `Sandbox.kill`; had `killSandbox` propagated a failure, the handler's
outer catch would turn it into a 500 response. -/
def statusCallbackPost (db : Db) (id : String) (req : StatusCallbackRequest)
    (raw : Except String Unit) : PostOutcome :=
  match db id with
  | none => ⟨db, .notFound, false⟩
  | some conv =>
    let updated := applyCallback conv req
    let db' : Db := fun k => if k = id then some updated else db k
    if strTruthy conv.sandboxId then
      match killSandbox raw with
      | .ok _ => ⟨db', .success, true⟩
      | .error e => ⟨db', .serverError e, true⟩
    else ⟨db', .success, false⟩

/-! ### Client side: the lifecycle controller of src/app/page.tsx -/

/-- Inner `message` object of a session entry. -/
structure ChatMessage where
  role : String
  content : String
deriving DecidableEq, Repr

/-- A session entry as constructed in page.tsx (field `type` of the TS
interface is `entryType` here, `type` being a Lean keyword). -/
structure SessionEntry where
  entryType : String
  uuid : String
  parentUuid : Option String
  sessionId : String
  timestamp : String
  isSidechain : Bool
  message : ChatMessage
deriving DecidableEq, Repr

/-- Pending message for optimistic UI (page.tsx lines 16–20). -/
structure PendingMessage where
  id : String
  content : String
  timestamp : String
deriving DecidableEq, Repr

/-- Body of `GET /api/conversations/{id}` as consumed by the poll tick. -/
structure ConversationResponse where
  status : ConvStatus
  messages : List SessionEntry
  errorMessage : Option String
deriving DecidableEq, Repr

/-- The client state held by the `Home` component (page.tsx lines 23–30). -/
structure ClientState where
  conversationId : Option String
  status : ConvStatus
  serverMessages : List SessionEntry
  pendingMessages : List PendingMessage
  errorMessage : Option String
  isSubmitting : Bool
  refreshTrigger : Nat
deriving DecidableEq, Repr

/-- Initial client state (the `useState` initialisers). -/
def initialClient : ClientState :=
  { conversationId := none
    status := .idle
    serverMessages := []
    pendingMessages := []
    errorMessage := none
    isSubmitting := false
    refreshTrigger := 0 }

/-- Conversion of a pending message into a displayed `SessionEntry`
(page.tsx lines 67–78): `parentUuid` is the uuid of the last server message
when one exists. -/
def pendingToEntry (server : List SessionEntry) (p : PendingMessage) : SessionEntry :=
  { entryType := "user"
    uuid := p.id
    parentUuid := server.getLast?.map (fun e => e.uuid)
    sessionId := ""
    timestamp := p.timestamp
    isSidechain := false
    message := { role := "user", content := p.content } }

/-- The displayed message sequence (page.tsx lines 65–79):
`[...serverMessages, ...pendingMessages.map(...)]`. -/
def displayedMessages (s : ClientState) : List SessionEntry :=
  s.serverMessages ++ s.pendingMessages.map (pendingToEntry s.serverMessages)

/-- Terminal statuses as tested by the poll tick
(`data.status === "completed" || data.status === "error"`). -/
def isTerminal (st : ConvStatus) : Bool :=
  st == .completed || st == .error

/-- One poll tick (page.tsx lines 37–59). `none` models a non-ok response or
a network error (state unchanged, error only logged); on an ok response the
server message list is replaced, pending messages are cleared when the
fetched status is terminal, and status / errorMessage / refreshTrigger are
updated. -/
def pollTick (s : ClientState) : Option ConversationResponse → ClientState
  | none => s
  | some data =>
    { s with
      serverMessages := data.messages
      pendingMessages := if isTerminal data.status then [] else s.pendingMessages
      status := data.status
      errorMessage := orNullStr data.errorMessage
      refreshTrigger := s.refreshTrigger + 1 }

/-- Outcome of the `POST /api/conversations` fetch inside `handleSubmit`. -/
inductive SubmitOutcome where
  | ok (conversationId : String)
  | failed (msg : String)
deriving DecidableEq, Repr

/-- The optimistic first half of `handleSubmit` (page.tsx lines 88–98):
set submitting, clear the error banner, append the pending message. -/
def addPending (s : ClientState) (pendingId content timestamp : String) : ClientState :=
  { s with
    isSubmitting := true
    errorMessage := none
    pendingMessages := s.pendingMessages ++ [⟨pendingId, content, timestamp⟩] }

/-- `handleSubmit` (page.tsx lines 86–127) for a given fetch outcome: on
success store the returned conversation id and set status running; on failure
filter out the pending message with the synthetic id and surface the error
text; clear `isSubmitting` either way. -/
def handleSubmit (s : ClientState) (pendingId content timestamp : String)
    (outcome : SubmitOutcome) : ClientState :=
  let s1 := addPending s pendingId content timestamp
  match outcome with
  | .ok convId =>
    { s1 with conversationId := some convId, status := .running, isSubmitting := false }
  | .failed msg =>
    { s1 with
      pendingMessages := s1.pendingMessages.filter (fun m => m.id != pendingId)
      errorMessage := some msg
      isSubmitting := false }

/-! ### Client polling loop as a transition system

The polling `useEffect` (page.tsx lines 34–62) has dependency array
`[conversationId, status]`: after every committed state change it is
(re)run — its cleanup clears any existing interval, and a new interval is
installed exactly when the guard `if (!conversationId || status !== "running")
return;` does not fire. The cooperative single-threaded client (spec §5) is
modelled by fusing each state-changing event with the subsequent effect run. -/

/-- The effect guard of page.tsx line 35: the interval is installed exactly
when `conversationId` is truthy and `status === "running"`. -/
def pollingShouldRun (s : ClientState) : Bool :=
  strTruthy s.conversationId && (s.status == .running)

/-- Client state plus effect bookkeeping: whether the component is mounted
and whether the 2-second poll interval is currently installed. -/
structure SysState where
  client : ClientState
  mounted : Bool
  intervalActive : Bool
deriving DecidableEq, Repr

/-- Labels of client events. -/
inductive SysLabel where
  | tick (resp : Option ConversationResponse)
  | submit (pendingId content timestamp : String) (outcome : SubmitOutcome)
  | unmount
deriving DecidableEq, Repr

/-- Commit a client state change and re-run the polling effect: the old
interval (if any) is cleared by the effect cleanup and a new one installed
iff the guard passes. -/
def applyEffect (c : ClientState) (mounted : Bool) : SysState :=
  ⟨c, mounted, mounted && pollingShouldRun c⟩

/-- Events of the client lifecycle controller. A poll tick can only fire
while the interval is installed; submit runs any time while mounted;
unmount clears the interval (the effect cleanup). -/
inductive SysStep : SysLabel → SysState → SysState → Prop where
  | tick (c : ClientState) (resp : Option ConversationResponse) :
      SysStep (.tick resp) ⟨c, true, true⟩ (applyEffect (pollTick c resp) true)
  | submit (c : ClientState) (a : Bool) (pid content ts : String) (outcome : SubmitOutcome) :
      SysStep (.submit pid content ts outcome) ⟨c, true, a⟩
        (applyEffect (handleSubmit c pid content ts outcome) true)
  | unmount (c : ClientState) (a : Bool) :
      SysStep .unmount ⟨c, true, a⟩ ⟨c, false, false⟩

/-- Initial system state: the initial client state after the mount effect. -/
def sysInit : SysState := applyEffect initialClient true

/-- States reachable from the mounted initial state. -/
inductive SysReachable : SysState → Prop where
  | init : SysReachable sysInit
  | step {s t : SysState} (l : SysLabel) : SysReachable s → SysStep l s t → SysReachable t

/-! ### File tree construction (src/lib/moru.ts, `buildFileTree`) -/

/-- File kinds of the volume listing (`"file" | "directory"`). -/
inductive FileType where
  | file
  | directory
deriving DecidableEq, Repr

/-- An entry returned by `volume.listFiles`. -/
structure RawFile where
  name : String
  ftype : FileType
  size : Option Nat
  path : String
deriving DecidableEq, Repr

/-- The `FileInfo` tree node of src/lib/moru.ts (field `type` is `ftype`
here): `children` is present exactly on directory nodes. -/
inductive FileInfo where
  | mk (name : String) (ftype : FileType) (size : Option Nat) (path : String)
      (children : Option (List FileInfo))

/-- Name of a tree node. -/
def FileInfo.name : FileInfo → String
  | .mk n _ _ _ _ => n

/-- Kind of a tree node. -/
def FileInfo.ftype : FileInfo → FileType
  | .mk _ t _ _ _ => t

/-- Children of a tree node (`none` on file nodes). -/
def FileInfo.children : FileInfo → Option (List FileInfo)
  | .mk _ _ _ _ c => c

/-- The sort comparator of moru.ts lines 133–137: directories first, then
`a.name.localeCompare(b.name)`. The locale comparison is the parameter
`lc`. -/
def cmpNode (lc : String → String → Int) (a b : FileInfo) : Int :=
  if a.ftype = .directory ∧ b.ftype ≠ .directory then -1
  else if a.ftype ≠ .directory ∧ b.ftype = .directory then 1
  else lc a.name b.name

/-- Non-strict order induced by the comparator, as consumed by a stable
comparison sort: `a` may precede `b` iff the comparator is ≤ 0. -/
def nodeLe (lc : String → String → Int) (a b : FileInfo) : Bool :=
  cmpNode lc a b ≤ 0

/-- `result.sort(comparator)`: JS `Array.prototype.sort` is a stable
comparison sort (ES2019), embedded as a stable merge sort on the induced
order. -/
def sortNodes (lc : String → String → Int) (l : List FileInfo) : List FileInfo :=
  l.mergeSort (nodeLe lc)

/-- The inner `buildNode` of `buildFileTree` (moru.ts lines 107–143):
return `[]` past the depth limit; otherwise list the directory (`lf`, with
`none` for a thrown listing error, caught to `[]`), build each node —
recursing into directories at `depth + 1` — and sort siblings. -/
def buildNode (lf : String → Option (List RawFile)) (lc : String → String → Int)
    (maxDepth : Nat) (path : String) (depth : Nat) : List FileInfo :=
  if _h : depth > maxDepth then []
  else
    match lf path with
    | none => []
    | some files =>
      sortNodes lc (files.map (fun f =>
        FileInfo.mk f.name f.ftype f.size f.path
          (if f.ftype = .directory
           then some (buildNode lf lc maxDepth f.path (depth + 1))
           else none)))
termination_by maxDepth + 1 - depth
decreasing_by omega

/-- `buildFileTree` (moru.ts lines 100–146): the volume listing is abstracted
into `lf`; the recursion starts at depth 0. -/
def buildFileTree (lf : String → Option (List RawFile)) (lc : String → String → Int)
    (path : String) (maxDepth : Nat) : List FileInfo :=
  buildNode lf lc maxDepth path 0

/-- `sub` is a sibling list occurring at nesting level `k` inside the sibling
list `root`: the root itself at level 0, the children array of a node of a
level-`k` list at level `k + 1`. -/
inductive OccursAt : Nat → List FileInfo → List FileInfo → Prop where
  | refl (l : List FileInfo) : OccursAt 0 l l
  | child {k : Nat} {sub cl l : List FileInfo} {node : FileInfo} :
      node ∈ l → node.children = some cl → OccursAt k sub cl → OccursAt (k + 1) sub l

/-! ### Helper lemmas -/

/-- The kill wrapper never propagates a failure. -/
theorem killSandbox_ok (raw : Except String Unit) : killSandbox raw = .ok () := by
  cases raw <;> rfl

/-- On an existing conversation the status-callback handler answers
`success` and stores the updated record, for every kill outcome. -/
theorem statusCallbackPost_found (db : Db) (id : String) (conv : Conversation)
    (req : StatusCallbackRequest) (raw : Except String Unit) (hdb : db id = some conv) :
    (statusCallbackPost db id req raw).response = .success ∧
    (statusCallbackPost db id req raw).db id = some (applyCallback conv req) := by
  unfold statusCallbackPost
  rw [hdb]
  cases raw <;> by_cases hb : strTruthy conv.sandboxId <;>
    simp [killSandbox, hb]

/-- Prepending a request to a callback sequence composes with a single
update. -/
theorem applyCallbacks_cons (conv : Conversation) (r : StatusCallbackRequest)
    (rs : List StatusCallbackRequest) :
    applyCallbacks conv (r :: rs) = applyCallbacks (applyCallback conv r) rs := rfl

/-! ### Fixtures for counterexamples and witnesses -/

/-- A running conversation with an active sandbox and no session id. -/
def convA : Conversation :=
  { id := "c1", status := .running, sessionId := none, sandboxId := some "sb-1"
    errorMessage := none }

/-- A store holding exactly `convA`. -/
def dbA : Db := fun k => if k = "c1" then some convA else none

/-- A callback reporting an error without any error message. -/
def reqErrNoMsg : StatusCallbackRequest :=
  { status := .error, errorMessage := none, sessionId := none }

/-- A running conversation that has already learned a session id. -/
def convB : Conversation :=
  { id := "c2", status := .running, sessionId := some "s1", sandboxId := some "sb-2"
    errorMessage := none }

/-- A callback supplying empty-string `errorMessage` and `sessionId`. -/
def reqEmptyStrings : StatusCallbackRequest :=
  { status := .completed, errorMessage := some "", sessionId := some "" }

/-- A completed-status callback supplying a session id. -/
def reqCompleted : StatusCallbackRequest :=
  { status := .completed, errorMessage := none, sessionId := some "s9" }

/-- An error-status callback supplying an error message. -/
def reqErrored : StatusCallbackRequest :=
  { status := .error, errorMessage := some "boom", sessionId := none }

/-! ### Claim C1 -/

/-- Claim C1, counterexample: a single status-callback update reporting
`status = error` with `errorMessage` absent yields a reachable record with
`status = error` and `errorMessage = null`, refuting "status = error implies
errorMessage is non-null". -/
theorem error_status_with_absent_message_yields_null_errorMessage :
    ((statusCallbackPost dbA "c1" reqErrNoMsg (Except.ok ())).db "c1").map Conversation.status
        = some ConvStatus.error ∧
    ((statusCallbackPost dbA "c1" reqErrNoMsg (Except.ok ())).db "c1").map Conversation.errorMessage
        = some none := by
  constructor <;> rfl

/-- Claim C1, amended: every record reachable by at least one status-callback
update has `sandboxId = null` (so both terminal statuses imply it), and its
`errorMessage` equals the message supplied by the most recent update when
that is present and non-empty, null otherwise — independent of the status
value. -/
theorem callback_updates_clear_sandbox_and_track_last_errorMessage
    (conv : Conversation) (reqs : List StatusCallbackRequest)
    (req : StatusCallbackRequest) (hlast : reqs.getLast? = some req) :
    (applyCallbacks conv reqs).sandboxId = none ∧
    (applyCallbacks conv reqs).errorMessage = orNullStr req.errorMessage := by
  induction reqs generalizing conv with
  | nil => simp at hlast
  | cons r rs ih =>
    cases rs with
    | nil =>
      simp only [List.getLast?_singleton, Option.some.injEq] at hlast
      subst hlast
      exact ⟨rfl, rfl⟩
    | cons r2 rs2 =>
      rw [applyCallbacks_cons]
      exact ih (applyCallback conv r) (by simpa using hlast)

/-- Claim C1, witness for the amended theorem: after the error-without-message
update followed by a completed update, the record has a null sandbox id and a
null error message. -/
theorem callback_updates_clear_sandbox_witness :
    (applyCallbacks convA [reqErrNoMsg, reqCompleted]).sandboxId = none ∧
    (applyCallbacks convA [reqErrNoMsg, reqCompleted]).errorMessage
        = orNullStr reqCompleted.errorMessage :=
  callback_updates_clear_sandbox_and_track_last_errorMessage convA
    [reqErrNoMsg, reqCompleted] reqCompleted rfl

/-! ### Claim C2 -/

/-- Claim C2, counterexample: a callback supplying `errorMessage = ""` and
`sessionId = ""` (values that are supplied, but falsy in JS) produces a
record whose `errorMessage` is null rather than the supplied value and whose
`sessionId` keeps its previous value rather than the supplied one. -/
theorem empty_string_fields_treated_as_absent :
    reqEmptyStrings.errorMessage = some "" ∧
    (applyCallback convB reqEmptyStrings).errorMessage = none ∧
    reqEmptyStrings.sessionId = some "" ∧
    (applyCallback convB reqEmptyStrings).sessionId = some "s1" := by
  refine ⟨rfl, rfl, rfl, rfl⟩

/-- Claim C2, amended: the callback update sets `status` to the supplied
status and `sandboxId` to null; `errorMessage` becomes the supplied value
when present and non-empty and null when absent or empty; `sessionId`
becomes the supplied value when present and non-empty and otherwise keeps
its previous value, so a previously non-null `sessionId` never becomes
null (the empty string is treated as absent, per JS `||`). -/
theorem callback_update_field_semantics
    (conv : Conversation) (req : StatusCallbackRequest) :
    (applyCallback conv req).status = req.status ∧
    (applyCallback conv req).sandboxId = none ∧
    (req.errorMessage ≠ none → req.errorMessage ≠ some "" →
      (applyCallback conv req).errorMessage = req.errorMessage) ∧
    ((req.errorMessage = none ∨ req.errorMessage = some "") →
      (applyCallback conv req).errorMessage = none) ∧
    (req.sessionId ≠ none → req.sessionId ≠ some "" →
      (applyCallback conv req).sessionId = req.sessionId) ∧
    ((req.sessionId = none ∨ req.sessionId = some "") →
      (applyCallback conv req).sessionId = conv.sessionId) ∧
    (conv.sessionId ≠ none → (applyCallback conv req).sessionId ≠ none) := by
  refine ⟨rfl, rfl, ?_, ?_, ?_, ?_, ?_⟩
  · intro h1 h2
    cases he : req.errorMessage with
    | none => exact absurd he h1
    | some s =>
      have hs : s ≠ "" := by
        intro hs0
        exact h2 (by simp [he, hs0])
      simp [applyCallback, orNullStr, he, hs]
  · intro h
    rcases h with h | h <;> simp [applyCallback, orNullStr, h]
  · intro h1 h2
    cases he : req.sessionId with
    | none => exact absurd he h1
    | some s =>
      have hs : s ≠ "" := by
        intro hs0
        exact h2 (by simp [he, hs0])
      simp [applyCallback, jsOrStr, he, hs]
  · intro h
    rcases h with h | h <;> simp [applyCallback, jsOrStr, h]
  · intro h
    cases he : req.sessionId with
    | none => simpa [applyCallback, jsOrStr, he] using h
    | some s =>
      by_cases hs : s = "" <;> simp [applyCallback, jsOrStr, he, hs]
      exact h

/-- Claim C2, witness: the amended field semantics at a concrete conversation
and request. -/
theorem callback_update_field_semantics_witness :
    (applyCallback convB reqErrored).status = reqErrored.status ∧
    (applyCallback convB reqErrored).sandboxId = none ∧
    (reqErrored.errorMessage ≠ none → reqErrored.errorMessage ≠ some "" →
      (applyCallback convB reqErrored).errorMessage = reqErrored.errorMessage) ∧
    ((reqErrored.errorMessage = none ∨ reqErrored.errorMessage = some "") →
      (applyCallback convB reqErrored).errorMessage = none) ∧
    (reqErrored.sessionId ≠ none → reqErrored.sessionId ≠ some "" →
      (applyCallback convB reqErrored).sessionId = reqErrored.sessionId) ∧
    ((reqErrored.sessionId = none ∨ reqErrored.sessionId = some "") →
      (applyCallback convB reqErrored).sessionId = convB.sessionId) ∧
    (convB.sessionId ≠ none → (applyCallback convB reqErrored).sessionId ≠ none) :=
  callback_update_field_semantics convB reqErrored

/-! ### Claim C4 -/

/-- Claim C4: for two callback calls on the same existing conversation with
different terminal statuses, both calls answer `success` whatever the kill
outcomes are (no cleanup error reaches the caller), and the stored record
after both calls carries the second call's status (last-write-wins) with a
null sandbox id. -/
theorem second_terminal_callback_wins_and_cleanup_isolated
    (db : Db) (id : String) (conv : Conversation)
    (req1 req2 : StatusCallbackRequest) (raw1 raw2 : Except String Unit)
    (hdb : db id = some conv)
    (_ht1 : isTerminal req1.status = true) (_ht2 : isTerminal req2.status = true)
    (_hne : req1.status ≠ req2.status) :
    (statusCallbackPost db id req1 raw1).response = .success ∧
    (statusCallbackPost (statusCallbackPost db id req1 raw1).db id req2 raw2).response
        = .success ∧
    ((statusCallbackPost (statusCallbackPost db id req1 raw1).db id req2 raw2).db id).map
        Conversation.status = some req2.status ∧
    ((statusCallbackPost (statusCallbackPost db id req1 raw1).db id req2 raw2).db id).map
        Conversation.sandboxId = some none := by
  obtain ⟨hresp1, hdb1⟩ := statusCallbackPost_found db id conv req1 raw1 hdb
  obtain ⟨hresp2, hdb2⟩ :=
    statusCallbackPost_found (statusCallbackPost db id req1 raw1).db id
      (applyCallback conv req1) req2 raw2 hdb1
  exact ⟨hresp1, hresp2, by rw [hdb2]; rfl, by rw [hdb2]; rfl⟩

/-- Claim C4, witness: completed-then-error callbacks on `convA`, the first
kill succeeding and the second failing; both respond success and the record
ends in error status. -/
theorem second_terminal_callback_wins_witness :
    (statusCallbackPost dbA "c1" reqCompleted (.ok ())).response = .success ∧
    (statusCallbackPost (statusCallbackPost dbA "c1" reqCompleted (.ok ())).db "c1"
        reqErrored (.error "kill failed")).response = .success ∧
    ((statusCallbackPost (statusCallbackPost dbA "c1" reqCompleted (.ok ())).db "c1"
        reqErrored (.error "kill failed")).db "c1").map Conversation.status
        = some reqErrored.status ∧
    ((statusCallbackPost (statusCallbackPost dbA "c1" reqCompleted (.ok ())).db "c1"
        reqErrored (.error "kill failed")).db "c1").map Conversation.sandboxId
        = some none :=
  second_terminal_callback_wins_and_cleanup_isolated dbA "c1" convA reqCompleted reqErrored
    (.ok ()) (.error "kill failed") rfl rfl rfl (by decide)

/-! ### Claim C5 -/

/-- Claim C5: on an existing conversation the status-callback endpoint
answers `success` for every kill outcome — in particular when the remote
kill fails — and `killSandbox` never propagates an error to its caller. -/
theorem callback_returns_success_despite_kill_failure
    (db : Db) (id : String) (conv : Conversation)
    (req : StatusCallbackRequest) (raw : Except String Unit)
    (hdb : db id = some conv) :
    (statusCallbackPost db id req raw).response = .success ∧
    killSandbox raw = .ok () :=
  ⟨(statusCallbackPost_found db id conv req raw hdb).1, killSandbox_ok raw⟩

/-- Claim C5, witness: the endpoint answers success on `convA` even when the
remote kill fails. -/
theorem callback_success_despite_kill_failure_witness :
    (statusCallbackPost dbA "c1" reqCompleted (.error "already dead")).response = .success ∧
    killSandbox (.error "already dead") = .ok () :=
  callback_returns_success_despite_kill_failure dbA "c1" convA reqCompleted
    (.error "already dead") rfl

/-! ### Client fixtures -/

/-- A server-confirmed user entry. -/
def entryU : SessionEntry :=
  { entryType := "user", uuid := "u-1", parentUuid := none, sessionId := "s1"
    timestamp := "t0", isSidechain := false
    message := { role := "user", content := "hello" } }

/-- An assistant entry answering `entryU`. -/
def entryA : SessionEntry :=
  { entryType := "assistant", uuid := "a-1", parentUuid := some "u-1", sessionId := "s1"
    timestamp := "t1", isSidechain := false
    message := { role := "assistant", content := "hi" } }

/-- A client state mid-run: one confirmed exchange plus one pending message. -/
def clientRunning : ClientState :=
  { conversationId := some "c1"
    status := .running
    serverMessages := [entryU]
    pendingMessages := [⟨"pending-1", "second question", "t2"⟩]
    errorMessage := none
    isSubmitting := false
    refreshTrigger := 3 }

/-- A completed poll response confirming both messages. -/
def respCompleted : ConversationResponse :=
  { status := .completed, messages := [entryU, entryA], errorMessage := none }

/-! ### Claim C3 -/

/-- Claim C3: when a poll tick returns a terminal status, the pending list
becomes empty and the displayed sequence equals exactly the server-confirmed
list returned by that poll. -/
theorem terminal_poll_clears_pending_and_matches_server
    (s : ClientState) (data : ConversationResponse)
    (_hp : s.pendingMessages ≠ [])
    (ht : isTerminal data.status = true) :
    (pollTick s (some data)).pendingMessages = [] ∧
    displayedMessages (pollTick s (some data)) = data.messages := by
  constructor
  · simp [pollTick, ht]
  · simp [displayedMessages, pollTick, ht]

/-- Claim C3, witness: a running state with one pending message receiving a
completed poll ends with no pending messages and displays exactly the two
server-confirmed entries. -/
theorem terminal_poll_clears_pending_witness :
    (pollTick clientRunning (some respCompleted)).pendingMessages = [] ∧
    displayedMessages (pollTick clientRunning (some respCompleted)) = respCompleted.messages :=
  terminal_poll_clears_pending_and_matches_server clientRunning respCompleted
    (by decide) rfl

/-! ### Claim C6 -/

/-- Claim C6: when the submit fetch fails and the synthetic id is fresh
(no earlier pending message carries it), the failing submit removes exactly
the pending message it had just added — the pending list returns to its
previous value, so exactly one message is removed — the server-confirmed
messages are untouched, and the error text is surfaced. -/
theorem failed_submit_removes_exactly_its_pending_message
    (s : ClientState) (pid content ts msg : String)
    (hfresh : ∀ m ∈ s.pendingMessages, m.id ≠ pid) :
    (handleSubmit s pid content ts (.failed msg)).pendingMessages = s.pendingMessages ∧
    (handleSubmit s pid content ts (.failed msg)).serverMessages = s.serverMessages ∧
    (handleSubmit s pid content ts (.failed msg)).errorMessage = some msg ∧
    (addPending s pid content ts).pendingMessages.length
      = (handleSubmit s pid content ts (.failed msg)).pendingMessages.length + 1 := by
  have key : (handleSubmit s pid content ts (.failed msg)).pendingMessages
      = s.pendingMessages := by
    simp only [handleSubmit, addPending, List.filter_append]
    rw [List.filter_eq_self.mpr, List.filter_cons_of_neg, List.filter_nil, List.append_nil]
    · simp
    · intro m hm
      simpa using hfresh m hm
  refine ⟨key, rfl, rfl, ?_⟩
  rw [key]
  simp [addPending]

/-- Claim C6, witness: a failing submit on the running client with a fresh
synthetic id restores the previous pending list, keeps the server messages
and surfaces the error text, having removed exactly one message. -/
theorem failed_submit_removes_exactly_witness :
    (handleSubmit clientRunning "pending-2" "third" "t3" (.failed "Failed to send message")).pendingMessages
        = clientRunning.pendingMessages ∧
    (handleSubmit clientRunning "pending-2" "third" "t3" (.failed "Failed to send message")).serverMessages
        = clientRunning.serverMessages ∧
    (handleSubmit clientRunning "pending-2" "third" "t3" (.failed "Failed to send message")).errorMessage
        = some "Failed to send message" ∧
    (addPending clientRunning "pending-2" "third" "t3").pendingMessages.length
        = (handleSubmit clientRunning "pending-2" "third" "t3"
            (.failed "Failed to send message")).pendingMessages.length + 1 :=
  failed_submit_removes_exactly_its_pending_message clientRunning "pending-2" "third" "t3"
    "Failed to send message" (by decide)

/-! ### Claim C7 -/

/-- Claim C7: the displayed sequence is the server-confirmed messages in
server order followed by the pending messages in submission order — index
`i` shows the `i`-th server message while `i` is below the server count, and
the `(i - serverCount)`-th converted pending message beyond it, so no pending
message ever appears before a server-confirmed one. -/
theorem displayed_is_server_then_pending (s : ClientState) (i : Nat) :
    (displayedMessages s).length
        = s.serverMessages.length + s.pendingMessages.length ∧
    (displayedMessages s)[i]? =
      (if i < s.serverMessages.length then s.serverMessages[i]?
       else (s.pendingMessages.map (pendingToEntry s.serverMessages))[i - s.serverMessages.length]?) := by
  constructor
  · simp [displayedMessages]
  · exact List.getElem?_append

/-! ### Claim C8 -/

/-- Claim C8: in every reachable system state the 2-second poll interval is
installed exactly when the component is mounted, the conversation id is set
(truthy) and the status is `running`; consequently a poll tick can only fire
from a state whose status is `running` — once the status leaves `running`
(or the component unmounts) the effect clears the interval and no further
tick occurs. -/
theorem polling_active_iff_mounted_running
    (s t : SysState) (resp : Option ConversationResponse)
    (hs : SysReachable s) :
    s.intervalActive = (s.mounted && pollingShouldRun s.client) ∧
    (SysStep (.tick resp) s t →
      s.client.status = .running ∧ strTruthy s.client.conversationId = true) := by
  have inv : ∀ u, SysReachable u →
      u.intervalActive = (u.mounted && pollingShouldRun u.client) := by
    intro u hu
    induction hu with
    | init => rfl
    | step l hprev hstep ih => cases hstep <;> simp [applyEffect]
  refine ⟨inv s hs, ?_⟩
  intro hstep
  cases hstep with
  | tick c resp =>
    have h := inv _ hs
    simp only [Bool.true_and] at h
    have hrun : pollingShouldRun c = true := h.symm
    have hparts := hrun
    simp only [pollingShouldRun, Bool.and_eq_true, beq_iff_eq] at hparts
    exact ⟨hparts.2, hparts.1⟩

/-- Claim C8, witness: the theorem applied to the initial mounted state,
where the invariant evaluates concretely (idle status, no conversation id,
interval not installed). -/
theorem polling_active_iff_mounted_running_witness :
    sysInit.intervalActive = (sysInit.mounted && pollingShouldRun sysInit.client) ∧
    (SysStep (.tick none) sysInit sysInit →
      sysInit.client.status = .running ∧ strTruthy sysInit.client.conversationId = true) :=
  polling_active_iff_mounted_running sysInit sysInit none SysReachable.init

/-! ### File tree lemmas -/

/-- Past the depth limit `buildNode` returns the empty list. -/
theorem buildNode_of_gt (lf : String → Option (List RawFile)) (lc : String → String → Int)
    (md : Nat) (p : String) (d : Nat) (h : d > md) :
    buildNode lf lc md p d = [] := by
  rw [buildNode.eq_def, dif_pos h]

/-- Membership in the sorted sibling list coincides with membership in the
unsorted one. -/
theorem mem_sortNodes (lc : String → String → Int) (l : List FileInfo) (x : FileInfo) :
    x ∈ sortNodes lc l ↔ x ∈ l :=
  (List.mergeSort_perm l (nodeLe lc)).mem_iff

/-- Every children array hanging off a node of `buildNode` at depth `d` is
itself a `buildNode` result at depth `d + 1`. -/
theorem buildNode_children (lf : String → Option (List RawFile)) (lc : String → String → Int)
    (md : Nat) (p : String) (d : Nat) (node : FileInfo)
    (hmem : node ∈ buildNode lf lc md p d)
    (cl : List FileInfo) (hc : node.children = some cl) :
    ∃ q, cl = buildNode lf lc md q (d + 1) := by
  rw [buildNode.eq_def] at hmem
  split at hmem
  · simp at hmem
  · split at hmem
    · simp at hmem
    · rw [mem_sortNodes] at hmem
      obtain ⟨f, _hf, rfl⟩ := List.mem_map.mp hmem
      simp only [FileInfo.children] at hc
      split at hc
      · exact ⟨f.path, by simpa using hc.symm⟩
      · exact absurd hc (by simp)

/-- A sibling list occurring at level `k` inside a `buildNode` result at
depth `d` is itself a `buildNode` result at depth `d + k`. -/
theorem occursAt_buildNode (lf : String → Option (List RawFile)) (lc : String → String → Int)
    (md : Nat) {k : Nat} {sub root : List FileInfo} (hocc : OccursAt k sub root) :
    ∀ p d, root = buildNode lf lc md p d → ∃ q, sub = buildNode lf lc md q (d + k) := by
  induction hocc with
  | refl l =>
    intro p d h
    exact ⟨p, by simpa using h⟩
  | child hm hc _hocc ih =>
    intro p d hroot
    subst hroot
    obtain ⟨q', hcl⟩ := buildNode_children lf lc md p d _ hm _ hc
    obtain ⟨q, hq⟩ := ih q' (d + 1) hcl
    refine ⟨q, ?_⟩
    rw [hq]
    congr 1
    omega

/-- Totality of the induced sibling order, given a total locale comparison. -/
theorem nodeLe_total (lc : String → String → Int)
    (htot : ∀ a b : String, lc a b ≤ 0 ∨ lc b a ≤ 0) (a b : FileInfo) :
    (nodeLe lc a b || nodeLe lc b a) = true := by
  by_cases da : a.ftype = FileType.directory <;>
    by_cases db : b.ftype = FileType.directory <;>
    rcases htot a.name b.name with h | h <;>
    simp [nodeLe, cmpNode, da, db, h]

/-- Transitivity of the induced sibling order, given a transitive locale
comparison. -/
theorem nodeLe_trans (lc : String → String → Int)
    (htrans : ∀ a b c : String, lc a b ≤ 0 → lc b c ≤ 0 → lc a c ≤ 0)
    (a b c : FileInfo) (hab : nodeLe lc a b = true) (hbc : nodeLe lc b c = true) :
    nodeLe lc a c = true := by
  by_cases da : a.ftype = FileType.directory <;>
    by_cases db : b.ftype = FileType.directory <;>
    by_cases dc : c.ftype = FileType.directory <;>
    simp_all [nodeLe, cmpNode] <;>
    exact htrans _ _ _ hab hbc

/-- The sorted sibling list is pairwise ordered by the induced order. -/
theorem pairwise_sortNodes (lc : String → String → Int)
    (htrans : ∀ a b c : String, lc a b ≤ 0 → lc b c ≤ 0 → lc a c ≤ 0)
    (htot : ∀ a b : String, lc a b ≤ 0 ∨ lc b a ≤ 0) (l : List FileInfo) :
    List.Pairwise (fun a b => nodeLe lc a b = true) (sortNodes lc l) :=
  List.sorted_mergeSort (nodeLe_trans lc htrans) (nodeLe_total lc htot) l

/-- Every `buildNode` result is pairwise ordered by the induced order. -/
theorem buildNode_pairwise (lf : String → Option (List RawFile)) (lc : String → String → Int)
    (htrans : ∀ a b c : String, lc a b ≤ 0 → lc b c ≤ 0 → lc a c ≤ 0)
    (htot : ∀ a b : String, lc a b ≤ 0 ∨ lc b a ≤ 0)
    (md : Nat) (p : String) (d : Nat) :
    List.Pairwise (fun a b => nodeLe lc a b = true) (buildNode lf lc md p d) := by
  rw [buildNode.eq_def]
  split
  · exact List.Pairwise.nil
  · split
    · exact List.Pairwise.nil
    · exact pairwise_sortNodes lc htrans htot _

/-- The induced order spelled out: directories strictly precede files, and
within one of the two groups the locale comparison is ≤ 0. -/
theorem nodeLe_iff (lc : String → String → Int) (a b : FileInfo) :
    nodeLe lc a b = true ↔
      ((a.ftype = FileType.directory ∧ b.ftype ≠ FileType.directory) ∨
       ((a.ftype = FileType.directory ↔ b.ftype = FileType.directory) ∧
         lc a.name b.name ≤ 0)) := by
  by_cases da : a.ftype = FileType.directory <;>
    by_cases db : b.ftype = FileType.directory <;>
    simp [nodeLe, cmpNode, da, db]

/-! ### Claim C9 -/

/-- Claim C9: `buildNode` is total (it is a Lean function, its recursion
consuming `maxDepth + 1 - depth`); any call at depth greater than `maxDepth`
returns the empty list; every non-empty sibling list of the tree sits at
nesting level at most `maxDepth` (so the tree has at most `maxDepth + 1`
levels of nodes); and a directory node at the depth limit carries an empty
children array. -/
theorem buildFileTree_depth_bounded
    (lf : String → Option (List RawFile)) (lc : String → String → Int)
    (md : Nat) (p : String) (d k : Nat) (sub cl : List FileInfo) (node : FileInfo) :
    (d > md → buildNode lf lc md p d = []) ∧
    (OccursAt k sub (buildFileTree lf lc p md) → sub ≠ [] → k ≤ md) ∧
    (OccursAt md sub (buildFileTree lf lc p md) → node ∈ sub →
      node.children = some cl → cl = []) := by
  refine ⟨buildNode_of_gt lf lc md p d, ?_, ?_⟩
  · intro hocc hne
    obtain ⟨q, hq⟩ := occursAt_buildNode lf lc md hocc p 0 rfl
    by_contra hk
    exact hne (hq.trans (buildNode_of_gt lf lc md q (0 + k) (by omega)))
  · intro hocc hmem hc
    obtain ⟨q, hq⟩ := occursAt_buildNode lf lc md hocc p 0 rfl
    rw [hq] at hmem
    obtain ⟨q', hq'⟩ := buildNode_children lf lc md q (0 + md) node hmem cl hc
    exact hq'.trans (buildNode_of_gt lf lc md q' ((0 + md) + 1) (by omega))

/-- A one-directory volume listing used by the file-tree witnesses. -/
def lfW : String → Option (List RawFile) :=
  fun _ => some [{ name := "a", ftype := .directory, size := none, path := "/a" }]

/-- The trivial locale comparison used by the file-tree witnesses. -/
def lcW : String → String → Int := fun _ _ => 0

/-- Claim C9, witness: the depth-bound theorem at the one-directory listing
with `maxDepth = 0`. -/
theorem buildFileTree_depth_bounded_witness :
    (1 > 0 → buildNode lfW lcW 0 "/" 1 = []) ∧
    (OccursAt 0 (buildFileTree lfW lcW "/" 0) (buildFileTree lfW lcW "/" 0) →
      buildFileTree lfW lcW "/" 0 ≠ [] → 0 ≤ 0) ∧
    (OccursAt 0 (buildFileTree lfW lcW "/" 0) (buildFileTree lfW lcW "/" 0) →
      FileInfo.mk "a" FileType.directory none "/a" (some []) ∈ buildFileTree lfW lcW "/" 0 →
      (FileInfo.mk "a" FileType.directory none "/a" (some [])).children = some [] →
      ([] : List FileInfo) = []) :=
  buildFileTree_depth_bounded lfW lcW 0 "/" 1 0 (buildFileTree lfW lcW "/" 0) []
    (FileInfo.mk "a" FileType.directory none "/a" (some []))

/-! ### Claim C10 -/

/-- Claim C10: when the locale comparison is transitive and total, every
sibling list of the returned tree — the top-level list and every children
array — is pairwise ordered with all directories before all files and, within
each of the two groups, nondecreasing names under the locale comparison. -/
theorem buildFileTree_siblings_sorted
    (lf : String → Option (List RawFile)) (lc : String → String → Int)
    (md : Nat) (p : String) (k : Nat) (sub : List FileInfo)
    (htrans : ∀ a b c : String, lc a b ≤ 0 → lc b c ≤ 0 → lc a c ≤ 0)
    (htot : ∀ a b : String, lc a b ≤ 0 ∨ lc b a ≤ 0)
    (hocc : OccursAt k sub (buildFileTree lf lc p md)) :
    List.Pairwise (fun a b =>
      (a.ftype = FileType.directory ∧ b.ftype ≠ FileType.directory) ∨
      ((a.ftype = FileType.directory ↔ b.ftype = FileType.directory) ∧
        lc a.name b.name ≤ 0)) sub := by
  obtain ⟨q, hq⟩ := occursAt_buildNode lf lc md hocc p 0 rfl
  rw [hq]
  exact (buildNode_pairwise lf lc htrans htot md q (0 + k)).imp
    (fun h => (nodeLe_iff lc _ _).mp h)

/-- Claim C10, witness: the sortedness theorem at the one-directory listing
with the trivial (transitive and total) locale comparison, at the top-level
sibling list. -/
theorem buildFileTree_siblings_sorted_witness :
    List.Pairwise (fun a b =>
      (a.ftype = FileType.directory ∧ b.ftype ≠ FileType.directory) ∨
      ((a.ftype = FileType.directory ↔ b.ftype = FileType.directory) ∧
        lcW a.name b.name ≤ 0)) (buildFileTree lfW lcW "/" 1) :=
  buildFileTree_siblings_sorted lfW lcW 1 "/" 0 (buildFileTree lfW lcW "/" 1)
    (fun _ _ _ _ _ => le_refl 0) (fun _ _ => Or.inl (le_refl 0))
    (OccursAt.refl (buildFileTree lfW lcW "/" 1))

end HackathonStarter
